import Mathlib

/-
  Verification of the PyMPoS `DataReader` component (src/datareader.py).

  The row-processing logic of `DataReader.read_excel` and
  `DataReader.read_csv` is embedded as pure Lean functions over an explicit
  session state.  File handling (opening the workbook or text file) is
  modelled by an `Except` input: `Except.error cause` stands for the caught
  open/parse exceptions, `Except.ok rows` for the fully parsed row
  sequence delivered by `openpyxl` respectively the `csv` module.
-/

namespace PyMPoS

/-- Model of a Python runtime value as it occurs in the data reader: cell
values read from a workbook, parsed text fields, and results of type
conversion.  `vNone` is Python `None`; floating-point numbers are modelled
as exact rationals (rounding plays no role in the properties considered
here). -/
inductive PyVal where
  | vNone : PyVal
  | vStr : String → PyVal
  | vInt : Int → PyVal
  | vFloat : ℚ → PyVal
  | vBool : Bool → PyVal
deriving DecidableEq, Repr

/-- Python `type(v).__name__` for the modelled values. -/
def PyVal.typeName : PyVal → String
  | .vNone => "NoneType"
  | .vStr _ => "str"
  | .vInt _ => "int"
  | .vFloat _ => "float"
  | .vBool _ => "bool"

/-- Numeric value of a list of decimal digit characters. -/
def digitsVal (cs : List Char) : Nat :=
  cs.foldl (fun a c => a * 10 + (c.toNat - 48)) 0

/-- Exponent part of a Python float literal: an optional sign followed by
at least one digit, consuming the whole remaining input.  The mantissa is
carried as a numerator/denominator pair and the power of ten is folded
into it. -/
def pyFloatExp (num : Int) (den : Nat) (cs : List Char) : Option ℚ :=
  let p :=
    match cs with
    | '-' :: t => (true, t)
    | '+' :: t => (false, t)
    | _ => (false, cs)
  let ed := p.2.takeWhile Char.isDigit
  let rest := p.2.dropWhile Char.isDigit
  if ed = [] ∨ rest ≠ [] then none
  else if p.1 then some (mkRat num (den * 10 ^ digitsVal ed))
  else some (mkRat (num * Int.ofNat (10 ^ digitsVal ed)) den)

/-- Model of the Python builtin `float(s)` on a string, as called by
`DataReader._type_convert`: an optional sign, decimal digits with an
optional fractional part, and an optional exponent; any other shape raises
`ValueError`, modelled as `none`.  Floats are modelled as exact rationals
(the value of the literal); whitespace stripping, underscores in literals
and the `inf`/`nan` literals are not modelled (they play no role in the
claims considered here). -/
def pyFloat? (s : String) : Option ℚ :=
  let p :=
    match s.toList with
    | '-' :: t => (true, t)
    | '+' :: t => (false, t)
    | cs => (false, cs)
  let ip := p.2.takeWhile Char.isDigit
  let r1 := p.2.dropWhile Char.isDigit
  let q :=
    match r1 with
    | '.' :: t => (t.takeWhile Char.isDigit, t.dropWhile Char.isDigit)
    | _ => ([], r1)
  if ip = [] ∧ q.1 = [] then none
  else
    let mag : Int := Int.ofNat (digitsVal ip * 10 ^ q.1.length + digitsVal q.1)
    let num : Int := if p.1 then -mag else mag
    let den : Nat := 10 ^ q.1.length
    match q.2 with
    | [] => some (mkRat num den)
    | 'e' :: t => pyFloatExp num den t
    | 'E' :: t => pyFloatExp num den t
    | _ => none

/-- `DataReader._type_convert` (datareader.py lines 84-104): a string is
parsed with `float`; on success that float is returned as is (the early
`return result` skips the narrowing branch), on failure the string itself
is returned.  A float with no fractional part is narrowed with `int`.
Every other value is returned unchanged. -/
def typeConvert : PyVal → PyVal
  | .vStr s =>
    match pyFloat? s with
    | some q => .vFloat q
    | none => .vStr s
  | .vFloat q => if q.den = 1 then .vInt q.num else .vFloat q
  | v => v

/-- One entry of `err_data`: the carried row values, whether the append
site wrapped them in a (non-resizable) tuple, and the reason string. -/
structure ErrRecord where
  raw : List PyVal
  fixedSeq : Bool
  reason : String
deriving DecidableEq, Repr

/-- The mutable attributes of a `DataReader` instance (datareader.py lines
68-73): `header`, `data`, `err_data`, `_data_types`, `_data_type_error`.
The configuration record is passed separately to the read functions: only
`lineskip` affects row handling, the dialect and encoding options
configure the external csv module and belong to the io layer that is
modelled by the `Except` input. -/
structure DataReader where
  header : List PyVal
  data : List (List PyVal)
  errData : List ErrRecord
  dataTypes : List String
  dataTypeError : Bool
deriving DecidableEq, Repr

/-- `DataReader.__init__` (lines 58-73): all collections empty and
`_data_type_error = False`. -/
def initState : DataReader :=
  { header := [], data := [], errData := [], dataTypes := [], dataTypeError := false }

/-- `DataReader._reset` (lines 75-82): clears `header`, `data`, `err_data`
and `_data_types`; it does not touch `_data_type_error`. -/
def resetReader (s : DataReader) : DataReader :=
  { s with header := [], data := [], errData := [], dataTypes := [] }

/-- Exceptions that can escape a read call in this model. -/
inductive PyExc where
  | dataReaderReadError : String → PyExc
  | typeError : String → PyExc
deriving DecidableEq, Repr

/-- `DataReaderReadError.__init__` (lines 14-22) declares exactly one
parameter besides `self`.  Instantiating the class with any other number
of positional arguments therefore raises `TypeError` under Python's call
protocol instead of constructing the exception.  Arguments are modelled by
their display text. -/
def mkDataReaderReadError : List String → PyExc
  | [message] => PyExc.dataReaderReadError message
  | _ => PyExc.typeError ("__init__() takes 2 positional arguments but 3 were given")

/-- Schema inference for one text row (`read_csv` lines 202-204): the tag
of each field is the `type(...).__name__` of its converted value. -/
def csvInferTypes (row : List String) : List String :=
  row.map (fun value => (typeConvert (.vStr value)).typeName)

/-- The validation loop of `read_csv` (lines 213-224) over
`zip(row, self._data_types)`: builds `data_set` and the `error` flag.  A
field whose converted value equals the empty string is stored as `None`
and skipped; otherwise the converted value's type name is compared with
the recorded tag, and the value is converted a second time before being
stored. -/
def csvValidate : List (String × String) → List PyVal × Bool
  | [] => ([], false)
  | (value0, dataType) :: rest =>
    let value := typeConvert (.vStr value0)
    let r := csvValidate rest
    if value = PyVal.vStr ("") then (PyVal.vNone :: r.1, r.2)
    else (typeConvert value :: r.1, (decide (value.typeName ≠ dataType) || r.2))

/-- `read_csv` lines 201-204: infer `_data_types` from the current row when
the header is captured, no types are recorded yet and the degenerate flag
is unset. -/
def csvInferStep (s : DataReader) (row : List String) : DataReader :=
  if s.header ≠ [] ∧ s.dataTypes = [] ∧ s.dataTypeError = false then
    { s with dataTypes := csvInferTypes row }
  else s

/-- `read_csv` lines 206-229: length check, degenerate append, and the
type-validation branch for one data row. -/
def csvCheckStep (s : DataReader) (row : List String) : DataReader :=
  if row.length ≠ s.header.length then
    { s with errData := s.errData ++ [⟨row.map PyVal.vStr, true, "Wrong length."⟩] }
  else if s.dataTypeError then
    { s with data := s.data ++ [row.map PyVal.vStr] }
  else
    let v := csvValidate (List.zip row s.dataTypes)
    if v.2 then
      { s with errData := s.errData ++ [⟨row.map PyVal.vStr, true, "Wrong data type."⟩] }
    else
      { s with data := s.data ++ [v.1] }

/-- Processing of one data row in `read_csv` (lines 200-229). -/
def csvProcessRow (s : DataReader) (row : List String) : DataReader :=
  csvCheckStep (csvInferStep s row) row

/-- The `for i, row in enumerate(reader)` loop of `read_csv` (lines
195-229): skip the first `lineskip` records, assign the header from the
first retained record while the header is empty (an empty record leaves it
empty, so capture is retried), then process data rows. -/
def csvLoop (lineskip : Nat) : Nat → DataReader → List (List String) → DataReader
  | _, s, [] => s
  | i, s, row :: rest =>
    let s' :=
      if i < lineskip then s
      else if s.header = [] then { s with header := row.map PyVal.vStr }
      else csvProcessRow s row
    csvLoop lineskip (i + 1) s' rest

/-- `DataReader.read_csv` (lines 171-231): reset the session, then either
fail to open the source (`Except.error`, modelling the caught
`FileNotFoundError`/`PermissionError`), in which case the handler at lines
230-231 instantiates `DataReaderReadError` with a message and the cause,
or run the record loop on the parsed rows. -/
def readCsv (lineskip : Nat) (s : DataReader)
    (source : Except String (List (List String))) : DataReader × Option PyExc :=
  let s0 := resetReader s
  match source with
  | Except.error cause =>
    (s0, some (mkDataReaderReadError ["Error while importing the file.", cause]))
  | Except.ok rows => (csvLoop lineskip 0 s0 rows, none)

/-- Schema inference for one worksheet row (`read_excel` lines 137-138):
the tag of each cell is its native `type(...).__name__`, including
`NoneType` for absent cells. -/
def excelInferTypes (row : List PyVal) : List String :=
  row.map PyVal.typeName

/-- The validation loop of `read_excel` (lines 151-162) over
`zip(data_values, self._data_types)`: builds `data_set` and the `error`
flag; values are appended uncoerced. -/
def excelValidate : List (PyVal × String) → List PyVal × Bool
  | [] => ([], false)
  | (value, dataType) :: rest =>
    let r := excelValidate rest
    if value = PyVal.vNone then (PyVal.vNone :: r.1, r.2)
    else (value :: r.1, (decide (value.typeName ≠ dataType) || r.2))

/-- `read_excel` lines 137-138: infer `_data_types` from the current row
when the header is captured and no types are recorded yet. -/
def excelInferStep (s : DataReader) (row : List PyVal) : DataReader :=
  if s.header ≠ [] ∧ s.dataTypes = [] then
    { s with dataTypes := excelInferTypes row }
  else s

/-- `read_excel` lines 140-167: compact the row to its non-absent cells
(`data_values`), length check against the header, then the
type-validation branch.  The wrong-length record carries the raw row; the
wrong-type record carries `tuple(data_values)`. -/
def excelCheckStep (s : DataReader) (row : List PyVal) : DataReader :=
  let dataValues := row.filter (fun c => c ≠ PyVal.vNone)
  if dataValues.length ≠ s.header.length then
    { s with errData := s.errData ++ [⟨row, true, "Wrong length."⟩] }
  else
    let v := excelValidate (List.zip dataValues s.dataTypes)
    if v.2 then
      { s with errData := s.errData ++ [⟨dataValues, true, "Wrong data type."⟩] }
    else
      { s with data := s.data ++ [v.1] }

/-- Processing of one data row in `read_excel` (lines 136-167). -/
def excelProcessRow (s : DataReader) (row : List PyVal) : DataReader :=
  excelCheckStep (excelInferStep s row) row

/-- The `for i, row in enumerate(worksheet.iter_rows(...))` loop of
`read_excel` (lines 127-167): skip the first `lineskip` rows, build the
header from the leading non-absent cells of the first retained row while
the header is empty (a row starting with an absent cell leaves it empty,
so capture is retried), then process data rows. -/
def excelLoop (lineskip : Nat) : Nat → DataReader → List (List PyVal) → DataReader
  | _, s, [] => s
  | i, s, row :: rest =>
    let s' :=
      if i < lineskip then s
      else if s.header = [] then
        { s with header := row.takeWhile (fun c => c ≠ PyVal.vNone) }
      else excelProcessRow s row
    excelLoop lineskip (i + 1) s' rest

/-- `DataReader.read_excel` (lines 106-169): reset the session, then either
fail to open the workbook (`Except.error`, modelling the caught
`FileNotFoundError`/`PermissionError`/`InvalidFileException`), in which
case the handler at lines 120-123 instantiates `DataReaderReadError` with
a message and the cause, or run the row loop on the worksheet rows. -/
def readExcel (lineskip : Nat) (s : DataReader)
    (source : Except String (List (List PyVal))) : DataReader × Option PyExc :=
  let s0 := resetReader s
  match source with
  | Except.error cause =>
    (s0, some (mkDataReaderReadError ["Error while importing the file.", cause]))
  | Except.ok rows => (excelLoop lineskip 0 s0 rows, none)

/-- In row `r`, at every position that the schema `ts` also covers, the
value is null, or its runtime type equals the recorded tag, or the tag is
`float` while an integer is stored (the narrowing performed by the second
conversion on the text path). -/
def rowTypesOk (r : List PyVal) (ts : List String) : Prop :=
  ∀ p ∈ List.zip r ts,
    p.1 = PyVal.vNone ∨ p.1.typeName = p.2 ∨ (p.2 = "float" ∧ p.1.typeName = "int")

/-- In row `r`, at every position that the schema `ts` also covers, the
value is null or its runtime type equals the recorded tag exactly. -/
def rowTypesExact (r : List PyVal) (ts : List String) : Prop :=
  ∀ p ∈ List.zip r ts, p.1 = PyVal.vNone ∨ p.1.typeName = p.2

/-- Every accepted row of session `t` relates to the recorded schema by
`rowTypesOk`. -/
def allRowsTyped (t : DataReader) : Prop :=
  ∀ r ∈ t.data, rowTypesOk r t.dataTypes

/-- Every accepted row of session `t` relates to the recorded schema by
`rowTypesExact`. -/
def allRowsTypedExact (t : DataReader) : Prop :=
  ∀ r ∈ t.data, rowTypesExact r t.dataTypes

/-- Every accepted row of session `t` was already present in `base` or has
exactly `n` values. -/
def allRowsLen (t : DataReader) (base : List (List PyVal)) (n : Nat) : Prop :=
  ∀ r ∈ t.data, r ∈ base ∨ r.length = n

/-- Every accepted row of session `t` is the output of the text-source
validation loop on some raw record, run against the recorded schema with
the error flag clear: no row was appended by the unvalidated degenerate
branch. -/
def allRowsValidated (t : DataReader) : Prop :=
  ∀ r ∈ t.data, ∃ raw, (csvValidate (List.zip raw t.dataTypes)).2 = false ∧
    r = (csvValidate (List.zip raw t.dataTypes)).1

/-- A sample session with a one-column header and a recorded `str` schema,
used to instantiate universally quantified theorems. -/
def sampleStr : DataReader :=
  { header := [PyVal.vStr ("A")], data := [], errData := [],
    dataTypes := ["str"], dataTypeError := false }

/-- A sample session with a one-column header and a recorded `int` schema. -/
def sampleInt : DataReader :=
  { header := [PyVal.vStr ("A")], data := [], errData := [],
    dataTypes := ["int"], dataTypeError := false }

/-- A sample session with a captured header and no recorded schema yet. -/
def sampleNoTypes : DataReader :=
  { header := [PyVal.vStr ("A")], data := [], errData := [],
    dataTypes := [], dataTypeError := false }

/- ## Helper lemmas about the type coercer -/

lemma typeConvert_vStr_empty_iff (raw : String) :
    typeConvert (.vStr raw) = PyVal.vStr ("") ↔ raw = "" := by
  cases h : pyFloat? raw with
  | none =>
    simp only [typeConvert, h]
    exact ⟨fun hv => by injection hv, fun hv => by rw [hv]⟩
  | some q =>
    simp only [typeConvert, h]
    constructor
    · intro hv; exact absurd hv (by simp)
    · intro hv; subst hv; simp [pyFloat?] at h

lemma typeConvert_twice_typeName (raw : String) (t : String)
    (h : (typeConvert (.vStr raw)).typeName = t) :
    (typeConvert (typeConvert (.vStr raw))).typeName = t ∨
      (t = "float" ∧ (typeConvert (typeConvert (.vStr raw))).typeName = "int") := by
  cases hq : pyFloat? raw with
  | none =>
    simp only [typeConvert, hq] at h ⊢
    exact Or.inl h
  | some q =>
    simp only [typeConvert, hq, PyVal.typeName] at h ⊢
    by_cases hd : q.den = 1
    · exact Or.inr ⟨h.symm, by simp [hd, PyVal.typeName]⟩
    · exact Or.inl (by simp [hd, PyVal.typeName, h])

/- ## Helper lemmas about the validation loops -/

lemma csvValidate_fst (l : List (String × String)) :
    (csvValidate l).1 = l.map (fun p =>
      if typeConvert (.vStr p.1) = PyVal.vStr ("") then PyVal.vNone
      else typeConvert (typeConvert (.vStr p.1))) := by
  induction l with
  | nil => rfl
  | cons p rest ih =>
    obtain ⟨value0, dataType⟩ := p
    simp only [csvValidate, List.map_cons]
    split <;> simp_all

lemma csvValidate_length (l : List (String × String)) :
    (csvValidate l).1.length = l.length := by
  rw [csvValidate_fst, List.length_map]

lemma csvValidate_err_iff (l : List (String × String)) :
    (csvValidate l).2 = true ↔ ∃ p ∈ l,
      typeConvert (.vStr p.1) ≠ PyVal.vStr ("") ∧
      (typeConvert (.vStr p.1)).typeName ≠ p.2 := by
  induction l with
  | nil => simp [csvValidate]
  | cons p rest ih =>
    obtain ⟨value0, dataType⟩ := p
    by_cases hv : typeConvert (.vStr value0) = PyVal.vStr ("")
    · simp only [csvValidate, if_pos hv, List.mem_cons]
      rw [ih]
      constructor
      · rintro ⟨q, hq, hne, hty⟩; exact ⟨q, Or.inr hq, hne, hty⟩
      · rintro ⟨q, hq | hq, hne, hty⟩
        · subst hq; exact absurd hv hne
        · exact ⟨q, hq, hne, hty⟩
    · simp only [csvValidate, if_neg hv, List.mem_cons]
      rw [Bool.or_eq_true, decide_eq_true_eq, ih]
      constructor
      · rintro (hty | ⟨q, hq, hne, hty⟩)
        · exact ⟨(value0, dataType), Or.inl rfl, hv, hty⟩
        · exact ⟨q, Or.inr hq, hne, hty⟩
      · rintro ⟨q, hq | hq, hne, hty⟩
        · subst hq; exact Or.inl hty
        · exact Or.inr ⟨q, hq, hne, hty⟩

lemma csvValidate_ok (row ts : List String)
    (he : (csvValidate (List.zip row ts)).2 = false) :
    rowTypesOk (csvValidate (List.zip row ts)).1 ts := by
  induction row generalizing ts with
  | nil => intro p hp; simp [csvValidate, List.zip] at hp
  | cons raw row ih =>
    cases ts with
    | nil => intro p hp; simp [csvValidate, List.zip] at hp
    | cons t ts =>
      by_cases hv : typeConvert (.vStr raw) = PyVal.vStr ("")
      · simp only [List.zip_cons_cons, csvValidate, if_pos hv] at he ⊢
        intro p hp
        rw [List.zip_cons_cons, List.mem_cons] at hp
        rcases hp with hp | hp
        · subst hp; exact Or.inl rfl
        · exact ih ts he p hp
      · simp only [List.zip_cons_cons, csvValidate, if_neg hv] at he ⊢
        rw [Bool.or_eq_false_iff] at he
        obtain ⟨h1, h2⟩ := he
        rw [decide_eq_false_iff_not, not_not] at h1
        intro p hp
        rw [List.zip_cons_cons, List.mem_cons] at hp
        rcases hp with hp | hp
        · subst hp
          rcases typeConvert_twice_typeName raw t h1 with h | ⟨hf, hi⟩
          · exact Or.inr (Or.inl h)
          · exact Or.inr (Or.inr ⟨hf, hi⟩)
        · exact ih ts h2 p hp

lemma excelValidate_fst (l : List (PyVal × String)) :
    (excelValidate l).1 = l.map Prod.fst := by
  induction l with
  | nil => rfl
  | cons p rest ih =>
    obtain ⟨value, dataType⟩ := p
    by_cases hv : value = PyVal.vNone
    · simp [excelValidate, hv, ih]
    · simp [excelValidate, hv, ih]

lemma excelValidate_length (l : List (PyVal × String)) :
    (excelValidate l).1.length = l.length := by
  rw [excelValidate_fst, List.length_map]

lemma excelValidate_err_iff (l : List (PyVal × String)) :
    (excelValidate l).2 = true ↔ ∃ p ∈ l,
      p.1 ≠ PyVal.vNone ∧ p.1.typeName ≠ p.2 := by
  induction l with
  | nil => simp [excelValidate]
  | cons p rest ih =>
    obtain ⟨value, dataType⟩ := p
    by_cases hv : value = PyVal.vNone
    · simp only [excelValidate, if_pos hv, List.mem_cons]
      rw [ih]
      constructor
      · rintro ⟨q, hq, hne, hty⟩; exact ⟨q, Or.inr hq, hne, hty⟩
      · rintro ⟨q, hq | hq, hne, hty⟩
        · subst hq; exact absurd hv hne
        · exact ⟨q, hq, hne, hty⟩
    · simp only [excelValidate, if_neg hv, List.mem_cons]
      rw [Bool.or_eq_true, decide_eq_true_eq, ih]
      constructor
      · rintro (hty | ⟨q, hq, hne, hty⟩)
        · exact ⟨(value, dataType), Or.inl rfl, hv, hty⟩
        · exact ⟨q, Or.inr hq, hne, hty⟩
      · rintro ⟨q, hq | hq, hne, hty⟩
        · subst hq; exact Or.inl hty
        · exact Or.inr ⟨q, hq, hne, hty⟩

lemma excelValidate_ok (vals : List PyVal) (ts : List String)
    (he : (excelValidate (List.zip vals ts)).2 = false) :
    rowTypesExact (excelValidate (List.zip vals ts)).1 ts := by
  induction vals generalizing ts with
  | nil => intro p hp; simp [excelValidate, List.zip] at hp
  | cons v vals ih =>
    cases ts with
    | nil => intro p hp; simp [excelValidate, List.zip] at hp
    | cons t ts =>
      by_cases hv : v = PyVal.vNone
      · simp only [List.zip_cons_cons, excelValidate, if_pos hv] at he ⊢
        intro p hp
        rw [List.zip_cons_cons, List.mem_cons] at hp
        rcases hp with hp | hp
        · subst hp; exact Or.inl rfl
        · exact ih ts he p hp
      · simp only [List.zip_cons_cons, excelValidate, if_neg hv] at he ⊢
        rw [Bool.or_eq_false_iff] at he
        obtain ⟨h1, h2⟩ := he
        rw [decide_eq_false_iff_not, not_not] at h1
        intro p hp
        rw [List.zip_cons_cons, List.mem_cons] at hp
        rcases hp with hp | hp
        · subst hp; exact Or.inr h1
        · exact ih ts h2 p hp

/- ## Branch lemmas for one row of read_csv -/

lemma csvInferStep_of_types_ne (s : DataReader) (row : List String)
    (h : s.dataTypes ≠ []) : csvInferStep s row = s := by
  unfold csvInferStep
  rw [if_neg]
  simp [h]

lemma csvInferStep_of_types_nil (s : DataReader) (row : List String)
    (h1 : s.header ≠ []) (h2 : s.dataTypes = []) (h3 : s.dataTypeError = false) :
    csvInferStep s row = { s with dataTypes := csvInferTypes row } := by
  unfold csvInferStep
  rw [if_pos ⟨h1, h2, h3⟩]

lemma csvCheckStep_wrongLength (s : DataReader) (row : List String)
    (h : row.length ≠ s.header.length) :
    csvCheckStep s row =
      { s with errData := s.errData ++ [⟨row.map PyVal.vStr, true, "Wrong length."⟩] } := by
  simp only [csvCheckStep]
  rw [if_pos h]

lemma csvCheckStep_degenerate (s : DataReader) (row : List String)
    (h1 : ¬row.length ≠ s.header.length) (h2 : s.dataTypeError = true) :
    csvCheckStep s row = { s with data := s.data ++ [row.map PyVal.vStr] } := by
  simp only [csvCheckStep]
  rw [if_neg h1, if_pos h2]

lemma csvCheckStep_wrongType (s : DataReader) (row : List String)
    (h1 : ¬row.length ≠ s.header.length) (h2 : s.dataTypeError = false)
    (h3 : (csvValidate (List.zip row s.dataTypes)).2 = true) :
    csvCheckStep s row =
      { s with errData := s.errData ++ [⟨row.map PyVal.vStr, true, "Wrong data type."⟩] } := by
  simp only [csvCheckStep]
  rw [if_neg h1, if_neg (by simp [h2]), if_pos h3]

lemma csvCheckStep_accept (s : DataReader) (row : List String)
    (h1 : ¬row.length ≠ s.header.length) (h2 : s.dataTypeError = false)
    (h3 : (csvValidate (List.zip row s.dataTypes)).2 = false) :
    csvCheckStep s row =
      { s with data := s.data ++ [(csvValidate (List.zip row s.dataTypes)).1] } := by
  simp only [csvCheckStep]
  rw [if_neg h1, if_neg (by simp [h2]), if_neg (by simp [h3])]

lemma csvCheckStep_header (s : DataReader) (row : List String) :
    (csvCheckStep s row).header = s.header := by
  simp only [csvCheckStep]
  split
  · rfl
  · split
    · rfl
    · split <;> rfl

lemma csvCheckStep_dataTypes (s : DataReader) (row : List String) :
    (csvCheckStep s row).dataTypes = s.dataTypes := by
  simp only [csvCheckStep]
  split
  · rfl
  · split
    · rfl
    · split <;> rfl

lemma csvCheckStep_flag (s : DataReader) (row : List String) :
    (csvCheckStep s row).dataTypeError = s.dataTypeError := by
  simp only [csvCheckStep]
  split
  · rfl
  · split
    · rfl
    · split <;> rfl

lemma csvCheckStep_data_cases (s : DataReader) (row : List String) :
    (csvCheckStep s row).data = s.data ∨
    (s.dataTypeError = true ∧ row.length = s.header.length ∧
      (csvCheckStep s row).data = s.data ++ [row.map PyVal.vStr]) ∨
    (s.dataTypeError = false ∧ row.length = s.header.length ∧
      (csvValidate (List.zip row s.dataTypes)).2 = false ∧
      (csvCheckStep s row).data = s.data ++ [(csvValidate (List.zip row s.dataTypes)).1]) := by
  by_cases h1 : row.length ≠ s.header.length
  · left; rw [csvCheckStep_wrongLength s row h1]
  · have heq : row.length = s.header.length := not_not.mp h1
    by_cases h2 : s.dataTypeError = true
    · right; left
      exact ⟨h2, heq, by rw [csvCheckStep_degenerate s row h1 h2]⟩
    · have h2' : s.dataTypeError = false := by
        revert h2; cases s.dataTypeError <;> simp
      by_cases h3 : (csvValidate (List.zip row s.dataTypes)).2 = true
      · left; rw [csvCheckStep_wrongType s row h1 h2' h3]
      · have h3' : (csvValidate (List.zip row s.dataTypes)).2 = false := by
          revert h3; cases (csvValidate (List.zip row s.dataTypes)).2 <;> simp
        right; right
        exact ⟨h2', heq, h3', by rw [csvCheckStep_accept s row h1 h2' h3']⟩

lemma csvProcessRow_header (s : DataReader) (row : List String) :
    (csvProcessRow s row).header = s.header := by
  unfold csvProcessRow csvInferStep
  rw [csvCheckStep_header]
  split <;> rfl

lemma csvProcessRow_flag (s : DataReader) (row : List String) :
    (csvProcessRow s row).dataTypeError = s.dataTypeError := by
  unfold csvProcessRow csvInferStep
  rw [csvCheckStep_flag]
  split <;> rfl

lemma csvProcessRow_types_of_ne (s : DataReader) (row : List String)
    (h : s.dataTypes ≠ []) : (csvProcessRow s row).dataTypes = s.dataTypes := by
  unfold csvProcessRow
  rw [csvInferStep_of_types_ne s row h, csvCheckStep_dataTypes]

/- ## Branch lemmas for one row of read_excel -/

lemma excelInferStep_of_types_ne (s : DataReader) (row : List PyVal)
    (h : s.dataTypes ≠ []) : excelInferStep s row = s := by
  unfold excelInferStep
  rw [if_neg]
  simp [h]

lemma excelInferStep_of_types_nil (s : DataReader) (row : List PyVal)
    (h1 : s.header ≠ []) (h2 : s.dataTypes = []) :
    excelInferStep s row = { s with dataTypes := excelInferTypes row } := by
  unfold excelInferStep
  rw [if_pos ⟨h1, h2⟩]

lemma excelCheckStep_wrongLength (s : DataReader) (row : List PyVal)
    (h : (row.filter (fun c => c ≠ PyVal.vNone)).length ≠ s.header.length) :
    excelCheckStep s row =
      { s with errData := s.errData ++ [⟨row, true, "Wrong length."⟩] } := by
  simp only [excelCheckStep]
  rw [if_pos h]

lemma excelCheckStep_wrongType (s : DataReader) (row : List PyVal)
    (h1 : ¬(row.filter (fun c => c ≠ PyVal.vNone)).length ≠ s.header.length)
    (h2 : (excelValidate (List.zip (row.filter (fun c => c ≠ PyVal.vNone)) s.dataTypes)).2 = true) :
    excelCheckStep s row =
      { s with errData := s.errData ++
        [⟨row.filter (fun c => c ≠ PyVal.vNone), true, "Wrong data type."⟩] } := by
  simp only [excelCheckStep]
  rw [if_neg h1, if_pos h2]

lemma excelCheckStep_accept (s : DataReader) (row : List PyVal)
    (h1 : ¬(row.filter (fun c => c ≠ PyVal.vNone)).length ≠ s.header.length)
    (h2 : (excelValidate (List.zip (row.filter (fun c => c ≠ PyVal.vNone)) s.dataTypes)).2 = false) :
    excelCheckStep s row =
      { s with data := s.data ++
        [(excelValidate (List.zip (row.filter (fun c => c ≠ PyVal.vNone)) s.dataTypes)).1] } := by
  simp only [excelCheckStep]
  rw [if_neg h1, if_neg (by rw [h2]; simp)]

lemma excelCheckStep_header (s : DataReader) (row : List PyVal) :
    (excelCheckStep s row).header = s.header := by
  simp only [excelCheckStep]
  split
  · rfl
  · split <;> rfl

lemma excelCheckStep_dataTypes (s : DataReader) (row : List PyVal) :
    (excelCheckStep s row).dataTypes = s.dataTypes := by
  simp only [excelCheckStep]
  split
  · rfl
  · split <;> rfl

lemma excelCheckStep_flag (s : DataReader) (row : List PyVal) :
    (excelCheckStep s row).dataTypeError = s.dataTypeError := by
  simp only [excelCheckStep]
  split
  · rfl
  · split <;> rfl

lemma excelCheckStep_data_cases (s : DataReader) (row : List PyVal) :
    (excelCheckStep s row).data = s.data ∨
    ((row.filter (fun c => c ≠ PyVal.vNone)).length = s.header.length ∧
      (excelValidate (List.zip (row.filter (fun c => c ≠ PyVal.vNone)) s.dataTypes)).2 = false ∧
      (excelCheckStep s row).data = s.data ++
        [(excelValidate (List.zip (row.filter (fun c => c ≠ PyVal.vNone)) s.dataTypes)).1]) := by
  by_cases h1 : (row.filter (fun c => c ≠ PyVal.vNone)).length ≠ s.header.length
  · left; rw [excelCheckStep_wrongLength s row h1]
  · have heq := not_not.mp h1
    by_cases h2 : (excelValidate (List.zip (row.filter (fun c => c ≠ PyVal.vNone)) s.dataTypes)).2 = true
    · left; rw [excelCheckStep_wrongType s row h1 h2]
    · have h2' : (excelValidate (List.zip (row.filter (fun c => c ≠ PyVal.vNone)) s.dataTypes)).2 = false := by
        revert h2
        cases (excelValidate (List.zip (row.filter (fun c => c ≠ PyVal.vNone)) s.dataTypes)).2 <;> simp
      right
      exact ⟨heq, h2', by rw [excelCheckStep_accept s row h1 h2']⟩

lemma excelProcessRow_header (s : DataReader) (row : List PyVal) :
    (excelProcessRow s row).header = s.header := by
  unfold excelProcessRow excelInferStep
  rw [excelCheckStep_header]
  split <;> rfl

lemma excelProcessRow_flag (s : DataReader) (row : List PyVal) :
    (excelProcessRow s row).dataTypeError = s.dataTypeError := by
  unfold excelProcessRow excelInferStep
  rw [excelCheckStep_flag]
  split <;> rfl

lemma excelProcessRow_types_of_ne (s : DataReader) (row : List PyVal)
    (h : s.dataTypes ≠ []) : (excelProcessRow s row).dataTypes = s.dataTypes := by
  unfold excelProcessRow
  rw [excelInferStep_of_types_ne s row h, excelCheckStep_dataTypes]

/- ## Loop-level preservation lemmas -/

lemma setHeader_self (s : DataReader) (h : s.header = []) :
    { s with header := ([] : List PyVal) } = s := by
  cases s
  simp only at h
  simp [h]

lemma csvLoop_flag (ls : Nat) (rows : List (List String)) :
    ∀ (i : Nat) (s : DataReader), (csvLoop ls i s rows).dataTypeError = s.dataTypeError := by
  induction rows with
  | nil => intro i s; rfl
  | cons row rest ih =>
    intro i s
    simp only [csvLoop]
    by_cases hi : i < ls
    · rw [if_pos hi]; exact ih _ s
    · rw [if_neg hi]
      by_cases hh : s.header = []
      · rw [if_pos hh, ih]
      · rw [if_neg hh, ih, csvProcessRow_flag]

lemma csvLoop_header_of_ne (ls : Nat) (rows : List (List String)) :
    ∀ (i : Nat) (s : DataReader), s.header ≠ [] →
      (csvLoop ls i s rows).header = s.header := by
  induction rows with
  | nil => intro i s _; rfl
  | cons row rest ih =>
    intro i s hh
    simp only [csvLoop]
    by_cases hi : i < ls
    · rw [if_pos hi]; exact ih _ s hh
    · rw [if_neg hi, if_neg hh,
        ih _ (csvProcessRow s row) (by rw [csvProcessRow_header]; exact hh),
        csvProcessRow_header]

lemma csvLoop_types_of_ne (ls : Nat) (rows : List (List String)) :
    ∀ (i : Nat) (s : DataReader), s.dataTypes ≠ [] →
      (csvLoop ls i s rows).dataTypes = s.dataTypes := by
  induction rows with
  | nil => intro i s _; rfl
  | cons row rest ih =>
    intro i s ht
    simp only [csvLoop]
    by_cases hi : i < ls
    · rw [if_pos hi]; exact ih _ s ht
    · rw [if_neg hi]
      by_cases hh : s.header = []
      · rw [if_pos hh]; exact ih _ _ ht
      · rw [if_neg hh,
          ih _ (csvProcessRow s row) (by rw [csvProcessRow_types_of_ne s row ht]; exact ht),
          csvProcessRow_types_of_ne s row ht]

lemma excelLoop_flag (ls : Nat) (rows : List (List PyVal)) :
    ∀ (i : Nat) (s : DataReader), (excelLoop ls i s rows).dataTypeError = s.dataTypeError := by
  induction rows with
  | nil => intro i s; rfl
  | cons row rest ih =>
    intro i s
    simp only [excelLoop]
    by_cases hi : i < ls
    · rw [if_pos hi]; exact ih _ s
    · rw [if_neg hi]
      by_cases hh : s.header = []
      · rw [if_pos hh, ih]
      · rw [if_neg hh, ih, excelProcessRow_flag]

lemma excelLoop_header_of_ne (ls : Nat) (rows : List (List PyVal)) :
    ∀ (i : Nat) (s : DataReader), s.header ≠ [] →
      (excelLoop ls i s rows).header = s.header := by
  induction rows with
  | nil => intro i s _; rfl
  | cons row rest ih =>
    intro i s hh
    simp only [excelLoop]
    by_cases hi : i < ls
    · rw [if_pos hi]; exact ih _ s hh
    · rw [if_neg hi, if_neg hh,
        ih _ (excelProcessRow s row) (by rw [excelProcessRow_header]; exact hh),
        excelProcessRow_header]

lemma excelLoop_types_of_ne (ls : Nat) (rows : List (List PyVal)) :
    ∀ (i : Nat) (s : DataReader), s.dataTypes ≠ [] →
      (excelLoop ls i s rows).dataTypes = s.dataTypes := by
  induction rows with
  | nil => intro i s _; rfl
  | cons row rest ih =>
    intro i s ht
    simp only [excelLoop]
    by_cases hi : i < ls
    · rw [if_pos hi]; exact ih _ s ht
    · rw [if_neg hi]
      by_cases hh : s.header = []
      · rw [if_pos hh]; exact ih _ _ ht
      · rw [if_neg hh,
          ih _ (excelProcessRow s row) (by rw [excelProcessRow_types_of_ne s row ht]; exact ht),
          excelProcessRow_types_of_ne s row ht]

/- ## Invariant transport: properties of all accepted rows -/

lemma csvCheckStep_data_prop (P : List PyVal → List String → Prop)
    (hP : ∀ row ts, (csvValidate (List.zip row ts)).2 = false →
        P (csvValidate (List.zip row ts)).1 ts)
    (s : DataReader) (row : List String) (hh : s.header ≠ [])
    (hf : s.dataTypeError = false)
    (hrow : s.dataTypes = [] → row = [])
    (he : s.dataTypes = [] → s.data = [])
    (hd : ∀ r ∈ s.data, P r s.dataTypes) :
    (csvCheckStep s row).dataTypeError = false ∧
    ((csvCheckStep s row).dataTypes = [] → (csvCheckStep s row).data = []) ∧
    (∀ r ∈ (csvCheckStep s row).data, P r (csvCheckStep s row).dataTypes) := by
  have hfl := csvCheckStep_flag s row
  have hdt := csvCheckStep_dataTypes s row
  rcases csvCheckStep_data_cases s row with hc | ⟨hdg, _, _⟩ | ⟨_, hlen, herr, hc⟩
  · rw [hfl, hdt, hc]
    exact ⟨hf, he, hd⟩
  · rw [hf] at hdg; cases hdg
  · have hty : s.dataTypes ≠ [] := by
      intro ht
      rw [hrow ht] at hlen
      exact hh (List.length_eq_zero.mp hlen.symm)
    rw [hfl, hdt, hc]
    refine ⟨hf, fun h => absurd h hty, ?_⟩
    intro r hr
    rw [List.mem_append, List.mem_singleton] at hr
    rcases hr with hr | hr
    · exact hd r hr
    · subst hr
      exact hP row s.dataTypes herr

lemma csvProcessRow_data_prop (P : List PyVal → List String → Prop)
    (hP : ∀ row ts, (csvValidate (List.zip row ts)).2 = false →
        P (csvValidate (List.zip row ts)).1 ts)
    (s : DataReader) (row : List String) (hh : s.header ≠ [])
    (hf : s.dataTypeError = false)
    (he : s.dataTypes = [] → s.data = [])
    (hd : ∀ r ∈ s.data, P r s.dataTypes) :
    (csvProcessRow s row).dataTypeError = false ∧
    ((csvProcessRow s row).dataTypes = [] → (csvProcessRow s row).data = []) ∧
    (∀ r ∈ (csvProcessRow s row).data, P r (csvProcessRow s row).dataTypes) := by
  unfold csvProcessRow
  by_cases ht : s.dataTypes = []
  · rw [csvInferStep_of_types_nil s row hh ht hf]
    refine csvCheckStep_data_prop P hP _ row hh hf ?_ ?_ ?_
    · intro h
      have h' : csvInferTypes row = [] := h
      unfold csvInferTypes at h'
      exact List.map_eq_nil_iff.mp h'
    · intro _
      exact he ht
    · intro r hr
      have hr' : r ∈ s.data := hr
      rw [he ht] at hr'
      cases hr'
  · rw [csvInferStep_of_types_ne s row ht]
    exact csvCheckStep_data_prop P hP s row hh hf (fun h => absurd h ht) he hd

lemma csvLoop_data_prop (P : List PyVal → List String → Prop)
    (hP : ∀ row ts, (csvValidate (List.zip row ts)).2 = false →
        P (csvValidate (List.zip row ts)).1 ts)
    (ls : Nat) (rows : List (List String)) :
    ∀ (i : Nat) (s : DataReader), s.dataTypeError = false →
      (s.dataTypes = [] → s.data = []) → (∀ r ∈ s.data, P r s.dataTypes) →
      (csvLoop ls i s rows).dataTypeError = false ∧
      ((csvLoop ls i s rows).dataTypes = [] → (csvLoop ls i s rows).data = []) ∧
      (∀ r ∈ (csvLoop ls i s rows).data, P r (csvLoop ls i s rows).dataTypes) := by
  induction rows with
  | nil => intro i s hf he hd; exact ⟨hf, he, hd⟩
  | cons row rest ih =>
    intro i s hf he hd
    simp only [csvLoop]
    by_cases hi : i < ls
    · rw [if_pos hi]; exact ih _ s hf he hd
    · rw [if_neg hi]
      by_cases hh : s.header = []
      · rw [if_pos hh]
        exact ih _ _ hf he hd
      · rw [if_neg hh]
        obtain ⟨h1, h2, h3⟩ := csvProcessRow_data_prop P hP s row hh hf he hd
        exact ih _ _ h1 h2 h3

lemma excelCheckStep_data_prop (P : List PyVal → List String → Prop)
    (hP : ∀ vals ts, (excelValidate (List.zip vals ts)).2 = false →
        P (excelValidate (List.zip vals ts)).1 ts)
    (s : DataReader) (row : List PyVal) (hh : s.header ≠ [])
    (hrow : s.dataTypes = [] → row = [])
    (he : s.dataTypes = [] → s.data = [])
    (hd : ∀ r ∈ s.data, P r s.dataTypes) :
    ((excelCheckStep s row).dataTypes = [] → (excelCheckStep s row).data = []) ∧
    (∀ r ∈ (excelCheckStep s row).data, P r (excelCheckStep s row).dataTypes) := by
  have hdt := excelCheckStep_dataTypes s row
  rcases excelCheckStep_data_cases s row with hc | ⟨hlen, herr, hc⟩
  · rw [hdt, hc]
    exact ⟨he, hd⟩
  · have hty : s.dataTypes ≠ [] := by
      intro ht
      rw [hrow ht] at hlen
      exact hh (List.length_eq_zero.mp hlen.symm)
    rw [hdt, hc]
    refine ⟨fun h => absurd h hty, ?_⟩
    intro r hr
    rw [List.mem_append, List.mem_singleton] at hr
    rcases hr with hr | hr
    · exact hd r hr
    · subst hr
      exact hP _ s.dataTypes herr

lemma excelProcessRow_data_prop (P : List PyVal → List String → Prop)
    (hP : ∀ vals ts, (excelValidate (List.zip vals ts)).2 = false →
        P (excelValidate (List.zip vals ts)).1 ts)
    (s : DataReader) (row : List PyVal) (hh : s.header ≠ [])
    (he : s.dataTypes = [] → s.data = [])
    (hd : ∀ r ∈ s.data, P r s.dataTypes) :
    ((excelProcessRow s row).dataTypes = [] → (excelProcessRow s row).data = []) ∧
    (∀ r ∈ (excelProcessRow s row).data, P r (excelProcessRow s row).dataTypes) := by
  unfold excelProcessRow
  by_cases ht : s.dataTypes = []
  · rw [excelInferStep_of_types_nil s row hh ht]
    refine excelCheckStep_data_prop P hP _ row hh ?_ ?_ ?_
    · intro h
      have h' : excelInferTypes row = [] := h
      unfold excelInferTypes at h'
      exact List.map_eq_nil_iff.mp h'
    · intro _
      exact he ht
    · intro r hr
      have hr' : r ∈ s.data := hr
      rw [he ht] at hr'
      cases hr'
  · rw [excelInferStep_of_types_ne s row ht]
    exact excelCheckStep_data_prop P hP s row hh (fun h => absurd h ht) he hd

lemma excelLoop_data_prop (P : List PyVal → List String → Prop)
    (hP : ∀ vals ts, (excelValidate (List.zip vals ts)).2 = false →
        P (excelValidate (List.zip vals ts)).1 ts)
    (ls : Nat) (rows : List (List PyVal)) :
    ∀ (i : Nat) (s : DataReader),
      (s.dataTypes = [] → s.data = []) → (∀ r ∈ s.data, P r s.dataTypes) →
      ((excelLoop ls i s rows).dataTypes = [] → (excelLoop ls i s rows).data = []) ∧
      (∀ r ∈ (excelLoop ls i s rows).data, P r (excelLoop ls i s rows).dataTypes) := by
  induction rows with
  | nil => intro i s he hd; exact ⟨he, hd⟩
  | cons row rest ih =>
    intro i s he hd
    simp only [excelLoop]
    by_cases hi : i < ls
    · rw [if_pos hi]; exact ih _ s he hd
    · rw [if_neg hi]
      by_cases hh : s.header = []
      · rw [if_pos hh]
        exact ih _ _ he hd
      · rw [if_neg hh]
        obtain ⟨h1, h2⟩ := excelProcessRow_data_prop P hP s row hh he hd
        exact ih _ _ h1 h2

/- ## Schema length and accepted-row length -/

lemma csvProcessRow_types_of_nil (s : DataReader) (row : List String)
    (hh : s.header ≠ []) (ht : s.dataTypes = []) (hf : s.dataTypeError = false) :
    (csvProcessRow s row).dataTypes = csvInferTypes row := by
  unfold csvProcessRow
  rw [csvInferStep_of_types_nil s row hh ht hf, csvCheckStep_dataTypes]

lemma excelProcessRow_types_of_nil (s : DataReader) (row : List PyVal)
    (hh : s.header ≠ []) (ht : s.dataTypes = []) :
    (excelProcessRow s row).dataTypes = excelInferTypes row := by
  unfold excelProcessRow
  rw [excelInferStep_of_types_nil s row hh ht, excelCheckStep_dataTypes]

lemma csvProcessRow_len (s : DataReader) (row : List String)
    (ht : s.dataTypes ≠ []) (hl : s.dataTypes.length = s.header.length) :
    ∀ r ∈ (csvProcessRow s row).data, r ∈ s.data ∨ r.length = s.header.length := by
  unfold csvProcessRow
  rw [csvInferStep_of_types_ne s row ht]
  rcases csvCheckStep_data_cases s row with hc | ⟨_, hlen, hc⟩ | ⟨_, hlen, _, hc⟩
  · rw [hc]; exact fun r hr => Or.inl hr
  · rw [hc]
    intro r hr
    rw [List.mem_append, List.mem_singleton] at hr
    rcases hr with hr | hr
    · exact Or.inl hr
    · subst hr
      right
      rw [List.length_map]
      exact hlen
  · rw [hc]
    intro r hr
    rw [List.mem_append, List.mem_singleton] at hr
    rcases hr with hr | hr
    · exact Or.inl hr
    · subst hr
      right
      rw [csvValidate_length, List.length_zip, hlen, hl, Nat.min_self]

lemma excelProcessRow_len (s : DataReader) (row : List PyVal)
    (ht : s.dataTypes ≠ []) (hl : s.dataTypes.length = s.header.length) :
    ∀ r ∈ (excelProcessRow s row).data, r ∈ s.data ∨ r.length = s.header.length := by
  unfold excelProcessRow
  rw [excelInferStep_of_types_ne s row ht]
  rcases excelCheckStep_data_cases s row with hc | ⟨hlen, _, hc⟩
  · rw [hc]; exact fun r hr => Or.inl hr
  · rw [hc]
    intro r hr
    rw [List.mem_append, List.mem_singleton] at hr
    rcases hr with hr | hr
    · exact Or.inl hr
    · subst hr
      right
      rw [excelValidate_length, List.length_zip, hlen, hl, Nat.min_self]

lemma csvLoop_len (ls : Nat) (rows : List (List String)) :
    ∀ (i : Nat) (s : DataReader), s.dataTypes ≠ [] →
      s.dataTypes.length = s.header.length →
      ∀ r ∈ (csvLoop ls i s rows).data, r ∈ s.data ∨ r.length = s.header.length := by
  induction rows with
  | nil => intro i s _ _ r hr; exact Or.inl hr
  | cons row rest ih =>
    intro i s ht hl
    simp only [csvLoop]
    by_cases hi : i < ls
    · rw [if_pos hi]; exact ih _ s ht hl
    · rw [if_neg hi]
      have hh : s.header ≠ [] := by
        intro h
        rw [h] at hl
        exact ht (List.length_eq_zero.mp (by simpa using hl))
      rw [if_neg hh]
      intro r hr
      have ht' : (csvProcessRow s row).dataTypes ≠ [] := by
        rw [csvProcessRow_types_of_ne s row ht]; exact ht
      have hl' : (csvProcessRow s row).dataTypes.length =
          (csvProcessRow s row).header.length := by
        rw [csvProcessRow_types_of_ne s row ht, csvProcessRow_header]; exact hl
      rcases ih _ (csvProcessRow s row) ht' hl' r hr with hr' | hr'
      · exact csvProcessRow_len s row ht hl r hr'
      · right
        rw [csvProcessRow_header] at hr'
        exact hr'

lemma excelLoop_len (ls : Nat) (rows : List (List PyVal)) :
    ∀ (i : Nat) (s : DataReader), s.dataTypes ≠ [] →
      s.dataTypes.length = s.header.length →
      ∀ r ∈ (excelLoop ls i s rows).data, r ∈ s.data ∨ r.length = s.header.length := by
  induction rows with
  | nil => intro i s _ _ r hr; exact Or.inl hr
  | cons row rest ih =>
    intro i s ht hl
    simp only [excelLoop]
    by_cases hi : i < ls
    · rw [if_pos hi]; exact ih _ s ht hl
    · rw [if_neg hi]
      have hh : s.header ≠ [] := by
        intro h
        rw [h] at hl
        exact ht (List.length_eq_zero.mp (by simpa using hl))
      rw [if_neg hh]
      intro r hr
      have ht' : (excelProcessRow s row).dataTypes ≠ [] := by
        rw [excelProcessRow_types_of_ne s row ht]; exact ht
      have hl' : (excelProcessRow s row).dataTypes.length =
          (excelProcessRow s row).header.length := by
        rw [excelProcessRow_types_of_ne s row ht, excelProcessRow_header]; exact hl
      rcases ih _ (excelProcessRow s row) ht' hl' r hr with hr' | hr'
      · exact excelProcessRow_len s row ht hl r hr'
      · right
        rw [excelProcessRow_header] at hr'
        exact hr'

/- ## Behaviour of a run while the header is empty -/

lemma csvLoop_capture_step (ls i : Nat) (s : DataReader) (row : List String)
    (rest : List (List String)) (hh : s.header = []) (hsk : ¬i < ls) :
    csvLoop ls i s (row :: rest) =
      csvLoop ls (i + 1) { s with header := row.map PyVal.vStr } rest := by
  simp only [csvLoop]
  rw [if_neg hsk, if_pos hh]

lemma excelLoop_capture_step (ls i : Nat) (s : DataReader) (row : List PyVal)
    (rest : List (List PyVal)) (hh : s.header = []) (hsk : ¬i < ls) :
    excelLoop ls i s (row :: rest) =
      excelLoop ls (i + 1)
        { s with header := row.takeWhile (fun c => c ≠ PyVal.vNone) } rest := by
  simp only [excelLoop]
  rw [if_neg hsk, if_pos hh]

lemma csvLoop_capture_retry (ls i : Nat) (s : DataReader)
    (rest : List (List String)) (hh : s.header = []) (hsk : ¬i < ls) :
    csvLoop ls i s ([] :: rest) = csvLoop ls (i + 1) s rest := by
  rw [csvLoop_capture_step ls i s [] rest hh hsk]
  have hs : ({ s with header := List.map PyVal.vStr ([] : List String) }) = s := by
    cases s
    simp only at hh
    simp [hh]
  rw [hs]

lemma excelLoop_capture_retry (ls i : Nat) (s : DataReader) (row : List PyVal)
    (rest : List (List PyVal)) (hh : s.header = []) (hsk : ¬i < ls)
    (hrow : row.takeWhile (fun c => c ≠ PyVal.vNone) = []) :
    excelLoop ls i s (row :: rest) = excelLoop ls (i + 1) s rest := by
  rw [excelLoop_capture_step ls i s row rest hh hsk, hrow, setHeader_self s hh]

lemma csvLoop_all_empty (ls : Nat) (rows : List (List String)) :
    ∀ (i : Nat) (s : DataReader), s.header = [] →
      (∀ r ∈ rows, r = ([] : List String)) → csvLoop ls i s rows = s := by
  induction rows with
  | nil => intro i s _ _; rfl
  | cons row rest ih =>
    intro i s hh hr
    simp only [csvLoop]
    by_cases hi : i < ls
    · rw [if_pos hi]
      exact ih _ s hh fun r h => hr r (List.mem_cons_of_mem _ h)
    · rw [if_neg hi, if_pos hh]
      have hrow : row = [] := hr row (List.mem_cons_self _ _)
      subst hrow
      have hs : ({ s with header := List.map PyVal.vStr ([] : List String) }) = s := by
        cases s
        simp only at hh
        simp [hh]
      rw [hs]
      exact ih _ s hh fun r h => hr r (List.mem_cons_of_mem _ h)

lemma excelLoop_all_empty (ls : Nat) (rows : List (List PyVal)) :
    ∀ (i : Nat) (s : DataReader), s.header = [] →
      (∀ r ∈ rows, r.takeWhile (fun c => c ≠ PyVal.vNone) = []) →
      excelLoop ls i s rows = s := by
  induction rows with
  | nil => intro i s _ _; rfl
  | cons row rest ih =>
    intro i s hh hr
    simp only [excelLoop]
    by_cases hi : i < ls
    · rw [if_pos hi]
      exact ih _ s hh fun r h => hr r (List.mem_cons_of_mem _ h)
    · rw [if_neg hi, if_pos hh]
      have hrow := hr row (List.mem_cons_self _ _)
      rw [hrow]
      have hs : ({ s with header := ([] : List PyVal) }) = s := setHeader_self s hh
      rw [hs]
      exact ih _ s hh fun r h => hr r (List.mem_cons_of_mem _ h)

/- ## Claim C1 -/

/-- C1 (counterexample): text source with header `["A","B"]` and first data
row `["x"]` — `read_csv` infers the schema before the length check, so the
captured schema has one tag while the header has two columns. -/
theorem c1_counterexample :
    ((readCsv 0 initState (Except.ok [["A","B"],["x"]])).1).header.length = 2 ∧
    ((readCsv 0 initState (Except.ok [["A","B"],["x"]])).1).dataTypes = ["str"] ∧
    ((readCsv 0 initState (Except.ok [["A","B"],["x"]])).1).dataTypes.length ≠
      ((readCsv 0 initState (Except.ok [["A","B"],["x"]])).1).header.length := by
  refine ⟨?_, ?_, ?_⟩ <;> decide

/-- C1 (amended): once captured, the schema has one type tag per field of
the row it was inferred from (not necessarily per header column); whenever
the recorded schema's tag count equals the header's column count, every
row subsequently added to the accepted collection has exactly that many
values — on both sources. -/
theorem c1_amended :
    (∀ (s : DataReader) (row : List String), s.header ≠ [] → s.dataTypes = [] →
      s.dataTypeError = false → (csvProcessRow s row).dataTypes.length = row.length) ∧
    (∀ (s : DataReader) (row : List PyVal), s.header ≠ [] → s.dataTypes = [] →
      (excelProcessRow s row).dataTypes.length = row.length) ∧
    (∀ (ls i : Nat) (s : DataReader) (rows : List (List String)), s.dataTypes ≠ [] →
      s.dataTypes.length = s.header.length →
      allRowsLen (csvLoop ls i s rows) s.data s.header.length) ∧
    (∀ (ls i : Nat) (s : DataReader) (rows : List (List PyVal)), s.dataTypes ≠ [] →
      s.dataTypes.length = s.header.length →
      allRowsLen (excelLoop ls i s rows) s.data s.header.length) := by
  refine ⟨?_, ?_, ?_, ?_⟩
  · intro s row hh ht hf
    rw [csvProcessRow_types_of_nil s row hh ht hf]
    simp [csvInferTypes]
  · intro s row hh ht
    rw [excelProcessRow_types_of_nil s row hh ht]
    simp [excelInferTypes]
  · intro ls i s rows ht hl
    exact csvLoop_len ls rows i s ht hl
  · intro ls i s rows ht hl
    exact excelLoop_len ls rows i s ht hl

/-- Witness for `c1_amended` at concrete inputs. -/
theorem c1_amended_witness :
    (csvProcessRow sampleNoTypes ["7"]).dataTypes.length = 1 ∧
    (excelProcessRow sampleNoTypes [PyVal.vInt 7]).dataTypes.length = 1 ∧
    allRowsLen (csvLoop 0 0 sampleStr [["x"],["y","z"]]) [] 1 ∧
    allRowsLen (excelLoop 0 0 sampleInt [[PyVal.vInt 3]]) [] 1 :=
  ⟨c1_amended.1 _ _ (by decide) rfl rfl,
   c1_amended.2.1 _ _ (by decide) rfl,
   c1_amended.2.2.1 0 0 _ _ (by decide) rfl,
   c1_amended.2.2.2 0 0 _ _ (by decide) rfl⟩

/- ## Claim C2 -/

/-- C2 (counterexample): `"10"` parses as the number 10, which has no
fractional part, yet `_type_convert` returns the float `10.0`, not the
integer `10` — the `return result` in the string branch skips the
narrowing step. -/
theorem c2_counterexample :
    pyFloat? ("10") = some 10 ∧ (10 : ℚ).den = 1 ∧
    typeConvert (.vStr ("10")) = PyVal.vFloat 10 ∧
    typeConvert (.vStr ("10")) ≠ PyVal.vInt 10 := by
  refine ⟨?_, ?_, ?_, ?_⟩ <;> decide

/-- C2 (amended): a string that parses as a number coerces to that
floating-point value and is returned un-narrowed; narrowing to an integer
happens only when the coercer receives an actual float with no fractional
part (as on the second application in the text-source row loop); a string
that fails the numeric parse is returned unchanged. -/
theorem c2_amended :
    (∀ (s : String) (q : ℚ), pyFloat? s = some q →
      typeConvert (.vStr s) = PyVal.vFloat q) ∧
    (∀ s : String, pyFloat? s = none → typeConvert (.vStr s) = PyVal.vStr s) ∧
    (∀ q : ℚ, q.den = 1 → typeConvert (.vFloat q) = PyVal.vInt q.num) ∧
    (∀ q : ℚ, q.den ≠ 1 → typeConvert (.vFloat q) = PyVal.vFloat q) := by
  refine ⟨?_, ?_, ?_, ?_⟩
  · intro s q h; simp [typeConvert, h]
  · intro s h; simp [typeConvert, h]
  · intro q h; simp [typeConvert, h]
  · intro q h; simp [typeConvert, h]

/-- Witness for `c2_amended` at concrete inputs. -/
theorem c2_amended_witness :
    typeConvert (.vStr ("10")) = PyVal.vFloat 10 ∧
    typeConvert (.vStr ("x")) = PyVal.vStr ("x") ∧
    typeConvert (.vFloat 10) = PyVal.vInt (10 : ℚ).num ∧
    typeConvert (.vFloat (mkRat 21 2)) = PyVal.vFloat (mkRat 21 2) :=
  ⟨c2_amended.1 _ 10 (by decide), c2_amended.2.1 _ (by decide),
   c2_amended.2.2.1 10 (by decide), c2_amended.2.2.2 (mkRat 21 2) (by decide)⟩

/- ## Claim C3 -/

/-- C3: once the schema is recorded, a data row whose field count — for
the spreadsheet source the number of non-absent cells, for the text source
the record length — differs from the header's column count is recorded as
a `Wrong length.` error carrying the raw row, and nothing else in the
session changes: the row is never added to the accepted rows and receives
no type processing. -/
theorem c3_wrong_length :
    (∀ (s : DataReader) (row : List String), s.dataTypes ≠ [] →
      row.length ≠ s.header.length →
      csvProcessRow s row =
        { s with errData := s.errData ++ [⟨row.map PyVal.vStr, true, "Wrong length."⟩] }) ∧
    (∀ (s : DataReader) (row : List PyVal), s.dataTypes ≠ [] →
      (row.filter (fun c => c ≠ PyVal.vNone)).length ≠ s.header.length →
      excelProcessRow s row =
        { s with errData := s.errData ++ [⟨row, true, "Wrong length."⟩] }) := by
  constructor
  · intro s row ht hlen
    unfold csvProcessRow
    rw [csvInferStep_of_types_ne s row ht, csvCheckStep_wrongLength s row hlen]
  · intro s row ht hlen
    unfold excelProcessRow
    rw [excelInferStep_of_types_ne s row ht, excelCheckStep_wrongLength s row hlen]

/-- Witness for `c3_wrong_length` at concrete inputs. -/
theorem c3_wrong_length_witness :
    csvProcessRow sampleStr ["x", "y"] =
      { sampleStr with
        errData := [⟨[PyVal.vStr ("x"), PyVal.vStr ("y")], true, "Wrong length."⟩] } ∧
    excelProcessRow sampleInt [PyVal.vInt 1, PyVal.vInt 2] =
      { sampleInt with
        errData := [⟨[PyVal.vInt 1, PyVal.vInt 2], true, "Wrong length."⟩] } :=
  ⟨c3_wrong_length.1 _ _ (by decide) (by decide),
   c3_wrong_length.2 _ _ (by decide) (by decide)⟩

/- ## Claim C4 -/

/-- C4 (counterexample): text source, header `["A"]`, single data row
`["10"]`.  The schema tag inferred from `"10"` is `float` (one
conversion), but the stored accepted value is the twice-converted integer
`10`, whose runtime type `int` is not the recorded tag `float`. -/
theorem c4_counterexample :
    ((readCsv 0 initState (Except.ok [["A"],["10"]])).1).dataTypes = ["float"] ∧
    ((readCsv 0 initState (Except.ok [["A"],["10"]])).1).data = [[PyVal.vInt 10]] ∧
    PyVal.typeName (PyVal.vInt 10) ≠ "float" := by
  refine ⟨?_, ?_, ?_⟩ <;> decide

/-- C4 (amended): every accepted row matches the recorded schema position
by position on the positions both cover: on the spreadsheet source the
stored value is null or its runtime type equals the tag exactly; on the
text source a position may also store an integer where the tag is `float`,
because the value is narrowed by a second conversion after the type
check. -/
theorem c4_amended :
    (∀ (ls : Nat) (rows : List (List String)),
      allRowsTyped ((readCsv ls initState (Except.ok rows)).1)) ∧
    (∀ (ls : Nat) (rows : List (List PyVal)),
      allRowsTypedExact ((readExcel ls initState (Except.ok rows)).1)) := by
  constructor
  · intro ls rows
    have h := csvLoop_data_prop rowTypesOk
      (fun row ts he => csvValidate_ok row ts he) ls rows 0 (resetReader initState)
      rfl (fun _ => rfl) (fun r hr => absurd hr (List.not_mem_nil r))
    exact h.2.2
  · intro ls rows
    have h := excelLoop_data_prop rowTypesExact
      (fun vals ts he => excelValidate_ok vals ts he) ls rows 0 (resetReader initState)
      (fun _ => rfl) (fun r hr => absurd hr (List.not_mem_nil r))
    exact h.2

/-- Witness for `c4_amended` at concrete inputs. -/
theorem c4_amended_witness :
    allRowsTyped ((readCsv 0 initState (Except.ok [["A"],["10"],["7"]])).1) ∧
    allRowsTypedExact ((readExcel 0 initState
      (Except.ok [[PyVal.vStr ("A")],[PyVal.vInt 5]])).1) :=
  ⟨c4_amended.1 0 _, c4_amended.2 0 _⟩

/- ## Claim C5 -/

/-- C5: the text-source validation loop stores a numeric-looking field
narrowed to an integer when the parsed value has no fractional part and as
a float otherwise, stores every empty field as null regardless of the
schema tag at that column, and a `Wrong data type.` rejection can only be
caused by a non-empty field whose coerced type differs from its tag. -/
theorem c5_csv_storage :
    (∀ (l : List (String × String)) (i : Nat) (raw t : String) (q : ℚ),
      (csvValidate l).2 = false → l[i]? = some (raw, t) → pyFloat? raw = some q →
      ((csvValidate l).1)[i]? =
        some (if q.den = 1 then PyVal.vInt q.num else PyVal.vFloat q)) ∧
    (∀ (l : List (String × String)) (i : Nat) (t : String),
      l[i]? = some ("", t) → ((csvValidate l).1)[i]? = some PyVal.vNone) ∧
    (∀ l : List (String × String), (csvValidate l).2 = true →
      ∃ p ∈ l, p.1 ≠ "" ∧ (typeConvert (.vStr p.1)).typeName ≠ p.2) := by
  refine ⟨?_, ?_, ?_⟩
  · intro l i raw t q _ hl hq
    rw [csvValidate_fst, List.getElem?_map, hl]
    simp [typeConvert, hq]
  · intro l i t hl
    rw [csvValidate_fst, List.getElem?_map, hl]
    simp [show typeConvert (.vStr ("")) = PyVal.vStr ("") from by decide]
  · intro l he
    obtain ⟨p, hp, hne, hty⟩ := (csvValidate_err_iff l).mp he
    refine ⟨p, hp, ?_, hty⟩
    intro h0
    exact hne ((typeConvert_vStr_empty_iff p.1).mpr h0)

/-- Witness for `c5_csv_storage` at concrete inputs: fields `"10"`,
`"10.5"` and `""` in `float`-tagged columns, and the mismatching row
`[("x","int")]`. -/
theorem c5_csv_storage_witness :
    ((csvValidate [("10", "float"), ("10.5", "float"), ("", "float")]).1)[0]? =
      some (PyVal.vInt 10) ∧
    ((csvValidate [("10", "float"), ("10.5", "float"), ("", "float")]).1)[1]? =
      some (PyVal.vFloat (mkRat 21 2)) ∧
    ((csvValidate [("10", "float"), ("10.5", "float"), ("", "float")]).1)[2]? =
      some PyVal.vNone ∧
    (∃ p ∈ [("x", "int")], p.1 ≠ "" ∧ (typeConvert (.vStr p.1)).typeName ≠ p.2) := by
  refine ⟨?_, ?_, ?_, ?_⟩
  · have h := c5_csv_storage.1 [("10", "float"), ("10.5", "float"), ("", "float")]
      0 ("10") ("float") 10 (by decide) rfl (by decide)
    rw [if_pos (by decide : (10 : ℚ).den = 1)] at h
    exact h
  · have h := c5_csv_storage.1 [("10", "float"), ("10.5", "float"), ("", "float")]
      1 ("10.5") ("float") (mkRat 21 2) (by decide) rfl (by decide)
    rw [if_neg (by decide : ¬(mkRat 21 2).den = 1)] at h
    exact h
  · exact c5_csv_storage.2.1 [("10", "float"), ("10.5", "float"), ("", "float")]
      2 ("float") rfl
  · exact c5_csv_storage.2.2 [("x", "int")] (by decide)

/- ## Claim C6 -/

/-- C6 (code bug): when the source cannot be opened or parsed, `_reset`
has already run, so the session's header, accepted rows, error records and
schema are all left empty — but the handler passes two arguments to
`DataReaderReadError.__init__`, which accepts only a message, so under
Python's call protocol a `TypeError` escapes instead of the documented
`DataReaderReadError`, and no cause is attached. -/
theorem c6_open_failure :
    ∀ (ls : Nat) (s : DataReader) (cause : String),
      (readCsv ls s (Except.error cause)).1 = resetReader s ∧
      (readExcel ls s (Except.error cause)).1 = resetReader s ∧
      (resetReader s).header = [] ∧ (resetReader s).data = [] ∧
      (resetReader s).errData = [] ∧ (resetReader s).dataTypes = [] ∧
      (readCsv ls s (Except.error cause)).2 =
        some (PyExc.typeError ("__init__() takes 2 positional arguments but 3 were given")) ∧
      (readExcel ls s (Except.error cause)).2 =
        some (PyExc.typeError ("__init__() takes 2 positional arguments but 3 were given")) ∧
      (∀ m : String, (readCsv ls s (Except.error cause)).2 ≠
        some (PyExc.dataReaderReadError m)) := by
  intro ls s cause
  refine ⟨rfl, rfl, rfl, rfl, rfl, rfl, rfl, rfl, ?_⟩
  intro m h
  have h' : some (PyExc.typeError ("__init__() takes 2 positional arguments but 3 were given")) =
      some (PyExc.dataReaderReadError m) := h
  exact PyExc.noConfusion (Option.some.inj h')

/- ## Claim C7 -/

/-- C7 (counterexample): text source `["A"] ; [] ; ["x"]`.  The first row
after header capture is empty, so schema inference on it yields no tags;
the recorded schema `["str"]` actually comes from the later row `["x"]` —
inference was not performed exactly once on the first data row. -/
theorem c7_counterexample :
    csvInferTypes [] = [] ∧
    ((readCsv 0 initState (Except.ok [["A"],[],["x"]])).1).dataTypes = ["str"] ∧
    (["str"] : List String) ≠ ([] : List String) := by
  refine ⟨rfl, ?_, by decide⟩
  decide

/-- C7 (amended): schema inference runs on every data row while the
recorded schema is empty (an empty record contributes no tags and
inference is retried); as soon as the recorded schema is nonempty it is
never recomputed or revised for the remainder of the session, on both
sources. -/
theorem c7_amended :
    (∀ (s : DataReader) (row : List String), s.header ≠ [] → s.dataTypes = [] →
      s.dataTypeError = false → (csvProcessRow s row).dataTypes = csvInferTypes row) ∧
    (∀ (s : DataReader) (row : List PyVal), s.header ≠ [] → s.dataTypes = [] →
      (excelProcessRow s row).dataTypes = excelInferTypes row) ∧
    (∀ (ls i : Nat) (s : DataReader) (rows : List (List String)), s.dataTypes ≠ [] →
      (csvLoop ls i s rows).dataTypes = s.dataTypes) ∧
    (∀ (ls i : Nat) (s : DataReader) (rows : List (List PyVal)), s.dataTypes ≠ [] →
      (excelLoop ls i s rows).dataTypes = s.dataTypes) := by
  refine ⟨?_, ?_, ?_, ?_⟩
  · intro s row hh ht hf
    exact csvProcessRow_types_of_nil s row hh ht hf
  · intro s row hh ht
    exact excelProcessRow_types_of_nil s row hh ht
  · intro ls i s rows ht
    exact csvLoop_types_of_ne ls rows i s ht
  · intro ls i s rows ht
    exact excelLoop_types_of_ne ls rows i s ht

/-- Witness for `c7_amended` at concrete inputs. -/
theorem c7_amended_witness :
    (csvProcessRow sampleNoTypes ["x"]).dataTypes = csvInferTypes ["x"] ∧
    (excelProcessRow sampleNoTypes [PyVal.vInt 7]).dataTypes =
      excelInferTypes [PyVal.vInt 7] ∧
    (csvLoop 0 0 sampleStr [["3"],["4"]]).dataTypes = ["str"] ∧
    (excelLoop 0 0 sampleInt [[PyVal.vStr ("z")]]).dataTypes = ["int"] :=
  ⟨c7_amended.1 _ _ (by decide) rfl rfl,
   c7_amended.2.1 _ _ (by decide) rfl,
   c7_amended.2.2.1 0 0 _ _ (by decide),
   c7_amended.2.2.2 0 0 _ _ (by decide)⟩

/- ## Claim C8 -/

/-- C8 (counterexample): a first retained row with zero usable cells does
not leave an empty captured header against which later rows fail length
validation — the empty header is falsy, so capture is retried: the next
row becomes the header, no error records are produced, and on the text
source a later row is even accepted. -/
theorem c8_counterexample :
    ((readExcel 0 initState (Except.ok [[PyVal.vNone],[PyVal.vStr ("A")]])).1).header =
      [PyVal.vStr ("A")] ∧
    ((readExcel 0 initState (Except.ok [[PyVal.vNone],[PyVal.vStr ("A")]])).1).errData = [] ∧
    ((readCsv 0 initState (Except.ok [[],["A"],["x"]])).1).header = [PyVal.vStr ("A")] ∧
    ((readCsv 0 initState (Except.ok [[],["A"],["x"]])).1).errData = [] ∧
    ((readCsv 0 initState (Except.ok [[],["A"],["x"]])).1).data = [[PyVal.vStr ("x")]] := by
  refine ⟨?_, ?_, ?_, ?_, ?_⟩ <;> decide

/-- C8 (amended): at any point of any run at which the header is empty,
the next retained record — whatever it contains — is consumed solely as a
header-capture attempt: the accepted rows, error records and schema are
untouched and the header becomes the record's captured prefix (the whole
record for the text source, the leading non-absent cells for the
spreadsheet source), so no row is ever length-validated against an empty
header and data processing begins only after some record yields a
nonempty header; a record with zero usable cells leaves the header empty
and the session unchanged, with capture retried on the following records;
if every retained record has zero usable cells the whole run leaves the
session unchanged. -/
theorem c8_amended :
    (∀ (ls i : Nat) (s : DataReader) (row : List String) (rest : List (List String)),
      s.header = [] → ¬i < ls →
      csvLoop ls i s (row :: rest) =
        csvLoop ls (i + 1) { s with header := row.map PyVal.vStr } rest) ∧
    (∀ (ls i : Nat) (s : DataReader) (row : List PyVal) (rest : List (List PyVal)),
      s.header = [] → ¬i < ls →
      excelLoop ls i s (row :: rest) =
        excelLoop ls (i + 1)
          { s with header := row.takeWhile (fun c => c ≠ PyVal.vNone) } rest) ∧
    (∀ (ls i : Nat) (s : DataReader) (rest : List (List String)),
      s.header = [] → ¬i < ls →
      csvLoop ls i s ([] :: rest) = csvLoop ls (i + 1) s rest) ∧
    (∀ (ls i : Nat) (s : DataReader) (row : List PyVal) (rest : List (List PyVal)),
      s.header = [] → ¬i < ls → row.takeWhile (fun c => c ≠ PyVal.vNone) = [] →
      excelLoop ls i s (row :: rest) = excelLoop ls (i + 1) s rest) ∧
    (∀ (ls i : Nat) (s : DataReader) (rows : List (List String)), s.header = [] →
      (∀ r ∈ rows, r = ([] : List String)) → csvLoop ls i s rows = s) ∧
    (∀ (ls i : Nat) (s : DataReader) (rows : List (List PyVal)), s.header = [] →
      (∀ r ∈ rows, r.takeWhile (fun c => c ≠ PyVal.vNone) = []) →
      excelLoop ls i s rows = s) := by
  refine ⟨?_, ?_, ?_, ?_, ?_, ?_⟩
  · intro ls i s row rest hh hsk
    exact csvLoop_capture_step ls i s row rest hh hsk
  · intro ls i s row rest hh hsk
    exact excelLoop_capture_step ls i s row rest hh hsk
  · intro ls i s rest hh hsk
    exact csvLoop_capture_retry ls i s rest hh hsk
  · intro ls i s row rest hh hsk hrow
    exact excelLoop_capture_retry ls i s row rest hh hsk hrow
  · intro ls i s rows hh hr
    exact csvLoop_all_empty ls rows i s hh hr
  · intro ls i s rows hh hr
    exact excelLoop_all_empty ls rows i s hh hr

/-- Witness for `c8_amended` at concrete inputs. -/
theorem c8_amended_witness :
    csvLoop 0 0 initState [["A"],["x"]] =
      csvLoop 0 1 { initState with header := [PyVal.vStr ("A")] } [["x"]] ∧
    excelLoop 0 0 initState [[PyVal.vStr ("A"), PyVal.vNone]] =
      excelLoop 0 1 { initState with header := [PyVal.vStr ("A")] } [] ∧
    csvLoop 0 0 initState [[], ["A"]] = csvLoop 0 1 initState [["A"]] ∧
    excelLoop 0 0 initState [[PyVal.vNone, PyVal.vInt 1], [PyVal.vStr ("A")]] =
      excelLoop 0 1 initState [[PyVal.vStr ("A")]] ∧
    csvLoop 0 0 initState [[], []] = initState ∧
    excelLoop 0 0 initState [[PyVal.vNone, PyVal.vNone]] = initState :=
  ⟨c8_amended.1 0 0 initState ["A"] [["x"]] rfl (by decide),
   c8_amended.2.1 0 0 initState [PyVal.vStr ("A"), PyVal.vNone] [] rfl (by decide),
   c8_amended.2.2.1 0 0 initState [["A"]] rfl (by decide),
   c8_amended.2.2.2.1 0 0 initState [PyVal.vNone, PyVal.vInt 1] [[PyVal.vStr ("A")]]
     rfl (by decide) (by decide),
   c8_amended.2.2.2.2.1 0 0 initState [[], []] rfl (by decide),
   c8_amended.2.2.2.2.2 0 0 initState [[PyVal.vNone, PyVal.vNone]] rfl (by decide)⟩

/- ## Claim C9 -/

/-- C9 (counterexample): spreadsheet run in which a wrong-type row
`["x", None, 3]` produces an error record carrying the compacted values
`["x", 3]` — the absent cell is dropped and positions shift, so the record
does not carry the raw row verbatim. -/
theorem c9_counterexample :
    ((readExcel 0 initState (Except.ok
      [[PyVal.vStr ("A"), PyVal.vStr ("B"), PyVal.vNone],
       [PyVal.vInt 1, PyVal.vInt 2, PyVal.vNone],
       [PyVal.vStr ("x"), PyVal.vNone, PyVal.vInt 3]])).1).errData =
      [⟨[PyVal.vStr ("x"), PyVal.vInt 3], true, "Wrong data type."⟩] ∧
    ([PyVal.vStr ("x"), PyVal.vInt 3] : List PyVal) ≠
      [PyVal.vStr ("x"), PyVal.vNone, PyVal.vInt 3] := by
  constructor <;> decide

/-- C9 (amended): a `Wrong data type.` record carries the row's uncoerced
values as a fixed (tuple) sequence; on the text source this is the raw
record verbatim, but on the spreadsheet source it is the compacted
`data_values` — the raw row with every absent cell removed — regardless of
which columns mismatched. -/
theorem c9_amended :
    (∀ (s : DataReader) (row : List String), s.dataTypes ≠ [] →
      s.dataTypeError = false → ¬row.length ≠ s.header.length →
      (csvValidate (List.zip row s.dataTypes)).2 = true →
      csvProcessRow s row =
        { s with errData := s.errData ++
          [⟨row.map PyVal.vStr, true, "Wrong data type."⟩] }) ∧
    (∀ (s : DataReader) (row : List PyVal), s.dataTypes ≠ [] →
      ¬(row.filter (fun c => c ≠ PyVal.vNone)).length ≠ s.header.length →
      (excelValidate (List.zip (row.filter (fun c => c ≠ PyVal.vNone)) s.dataTypes)).2 = true →
      excelProcessRow s row =
        { s with errData := s.errData ++
          [⟨row.filter (fun c => c ≠ PyVal.vNone), true, "Wrong data type."⟩] }) := by
  constructor
  · intro s row ht hf hlen herr
    unfold csvProcessRow
    rw [csvInferStep_of_types_ne s row ht, csvCheckStep_wrongType s row hlen hf herr]
  · intro s row ht hlen herr
    unfold excelProcessRow
    rw [excelInferStep_of_types_ne s row ht, excelCheckStep_wrongType s row hlen herr]

/-- Witness for `c9_amended` at concrete inputs. -/
theorem c9_amended_witness :
    csvProcessRow sampleInt ["x"] =
      { sampleInt with errData := [⟨[PyVal.vStr ("x")], true, "Wrong data type."⟩] } ∧
    excelProcessRow sampleInt [PyVal.vStr ("x"), PyVal.vNone] =
      { sampleInt with errData := [⟨[PyVal.vStr ("x")], true, "Wrong data type."⟩] } :=
  ⟨c9_amended.1 _ _ (by decide) rfl (by decide) (by decide),
   c9_amended.2 _ _ (by decide) (by decide) (by decide)⟩

/- ## Claim C10 -/

/-- C10: `_data_type_error` starts false and is preserved by `_reset` and
by both read operations — no operation ever sets it — so it is false in
every reachable state; consequently every accepted text-source row was
produced by the validating branch with a clear error flag, and the
degenerate branch that would append rows without type validation never
runs. -/
theorem c10_flag_invariant :
    initState.dataTypeError = false ∧
    (∀ s : DataReader, (resetReader s).dataTypeError = s.dataTypeError) ∧
    (∀ (ls : Nat) (s : DataReader) (src : Except String (List (List String))),
      ((readCsv ls s src).1).dataTypeError = s.dataTypeError) ∧
    (∀ (ls : Nat) (s : DataReader) (src : Except String (List (List PyVal))),
      ((readExcel ls s src).1).dataTypeError = s.dataTypeError) ∧
    (∀ (ls : Nat) (rows : List (List String)),
      allRowsValidated ((readCsv ls initState (Except.ok rows)).1)) := by
  refine ⟨rfl, fun s => rfl, ?_, ?_, ?_⟩
  · intro ls s src
    cases src with
    | error e => rfl
    | ok rows => exact csvLoop_flag ls rows 0 (resetReader s)
  · intro ls s src
    cases src with
    | error e => rfl
    | ok rows => exact excelLoop_flag ls rows 0 (resetReader s)
  · intro ls rows
    have h := csvLoop_data_prop
      (fun r ts => ∃ raw, (csvValidate (List.zip raw ts)).2 = false ∧
        r = (csvValidate (List.zip raw ts)).1)
      (fun row ts he => ⟨row, he, rfl⟩) ls rows 0 (resetReader initState)
      rfl (fun _ => rfl) (fun r hr => absurd hr (List.not_mem_nil r))
    exact h.2.2

/-- Witness for `c10_flag_invariant` at concrete inputs. -/
theorem c10_flag_invariant_witness :
    ((readCsv 0 initState (Except.ok [["A"],["x"]])).1).dataTypeError = false ∧
    allRowsValidated ((readCsv 0 initState (Except.ok [["A"],["x"]])).1) :=
  ⟨c10_flag_invariant.2.2.1 0 initState (Except.ok [["A"],["x"]]),
   c10_flag_invariant.2.2.2.2 0 [["A"],["x"]]⟩

end PyMPoS
